import Mathlib

/-!
Shallow embedding of the e-commerce microservices repository
(user / product / order / notification services) and proofs of the
frozen claims about it.

Monetary amounts (Python `float`) are modelled as rationals; Python's
`round(x, 2)` (round-half-to-even at two decimals) is modelled by
`round2`.  Stateful persistence (the document store) is modelled by
explicit association-list stores keyed by string identifiers, and
fallible service operations return `Except Err _` paired with the
resulting store.  Python `datetime.utcnow()` timestamps are modelled
as a `Nat` parameter supplied by the caller.
-/

namespace ECom

/-- Nearest integer with ties going to the even integer
(Python's `round` on a value exactly representable as a rational). -/
def roundHalfEven (q : ℚ) : ℤ :=
  if q - ⌊q⌋ < 1/2 then ⌊q⌋
  else if 1/2 < q - ⌊q⌋ then ⌊q⌋ + 1
  else if ⌊q⌋ % 2 = 0 then ⌊q⌋ else ⌊q⌋ + 1

/-- Python `round(x, 2)`: round to two decimal places, ties to even. -/
def round2 (q : ℚ) : ℚ := (roundHalfEven (q * 100) : ℚ) / 100

/-- A rational that is a whole number of cents (an exact 2-decimal value). -/
def isCents (q : ℚ) : Prop := ∃ k : ℤ, q = (k : ℚ) / 100

/-- Python `v or 0` on a float `v`. -/
def pyOrZero (q : ℚ) : ℚ := if q = 0 then 0 else q

/-! ## Order service: data model (src/order_service/app/models/order.py) -/

/-- `OrderStatus` enumeration. -/
inductive OrderStatus where
  | pending | confirmed | processing | shipped | delivered | cancelled | refunded
  deriving DecidableEq, Repr

/-- The string value of an `OrderStatus` member. -/
def statusText : OrderStatus → String
  | .pending => "pending"
  | .confirmed => "confirmed"
  | .processing => "processing"
  | .shipped => "shipped"
  | .delivered => "delivered"
  | .cancelled => "cancelled"
  | .refunded => "refunded"

/-- `PaymentStatus` enumeration. -/
inductive PaymentStatus where
  | pending | paid | failed | refunded
  deriving DecidableEq, Repr

/-- `OrderItem` document (fields used by the claims). -/
structure OrderItem where
  product_id : String
  product_name : String
  product_sku : Option String
  unit_price : ℚ
  quantity : ℕ
  total_price : ℚ
  deriving DecidableEq, Repr

/-- Pydantic validator `calculate_total_price` on `OrderItem`:
`total_price` is always recomputed as `round(unit_price * quantity, 2)`,
whatever value was supplied. -/
def OrderItem.validate (i : OrderItem) : OrderItem :=
  { i with total_price := round2 (i.unit_price * (i.quantity : ℚ)) }

/-- `Order` document (fields used by the claims; the embedded shipping
address, payment fields and metadata bag carry no claim content and are
omitted). -/
structure Order where
  order_number : String
  user_id : String
  user_email : String
  items : List OrderItem
  subtotal : ℚ
  tax_amount : ℚ
  shipping_cost : ℚ
  discount_amount : ℚ
  total_amount : ℚ
  status : OrderStatus
  payment_status : PaymentStatus
  tracking_number : Option String := none
  updated_at : ℕ := 0
  confirmed_at : Option ℕ := none
  shipped_at : Option ℕ := none
  delivered_at : Option ℕ := none
  notes : Option String := none
  deriving DecidableEq, Repr

/-- Pydantic validators `calculate_subtotal` and `calculate_total_amount`
on `Order`, applied at every construction (validators run in field
declaration order, so the recomputed subtotal feeds the total):
`subtotal` is recomputed from the items when the item list is non-empty
(`v or 0` otherwise), and `total_amount` is always recomputed as
`round(max(subtotal + tax_amount + shipping_cost - discount_amount, 0), 2)`. -/
def Order.validate (o : Order) : Order :=
  let sub := if o.items.isEmpty then pyOrZero o.subtotal
             else round2 ((o.items.map OrderItem.total_price).sum)
  { o with
    subtotal := sub
    total_amount := round2 (max (sub + o.tax_amount + o.shipping_cost - o.discount_amount) 0) }

/-- `Order.is_cancellable`: status is pending, confirmed or processing. -/
def Order.is_cancellable (o : Order) : Bool :=
  o.status = .pending ∨ o.status = .confirmed ∨ o.status = .processing

/-- `Order.is_editable`: status is pending or confirmed. -/
def Order.is_editable (o : Order) : Bool :=
  o.status = .pending ∨ o.status = .confirmed

/-! ## Document store

The MongoDB collections are modelled as association lists keyed by the
document identifier; `Model.get(id)` is `storeGet` and `document.save()`
after an in-place mutation is `storeSet`. -/

/-- Look a document up by identifier (`Model.get(id)`). -/
def storeGet {α : Type} (s : List (String × α)) (k : String) : Option α :=
  (s.find? (fun e => e.1 == k)).map (·.2)

/-- Persist a mutated document back under its identifier (`doc.save()`). -/
def storeSet {α : Type} (s : List (String × α)) (k : String) (v : α) :
    List (String × α) :=
  s.map (fun e => if e.1 == k then (k, v) else e)

/-- A service-level failure: HTTP status code and detail message
(`HTTPException(status_code, detail)`). -/
structure Err where
  status_code : ℕ
  detail : String
  deriving DecidableEq, Repr

/-! ## Order repository (src/order_service/app/repositories/order_repository.py) -/

/-- The order collection. -/
abbrev OrderStore := List (String × Order)

/-- Note appending inside `OrderRepository.update_order_status`: prefix the
new note with the current timestamp, on a fresh line when notes exist. -/
def appendNote (old : Option String) (now : ℕ) (s : String) : String :=
  match old with
  | some t => t ++ "\n" ++ toString now ++ ": " ++ s
  | none => toString now ++ ": " ++ s

/-- The `if status == ... and not order.<milestone>_at` chain of
`OrderRepository.update_order_status`: stamp the milestone timestamp for
confirmed/shipped/delivered only when it is not already set. -/
def stamp_milestones (now : ℕ) (status : OrderStatus) (o : Order) : Order :=
  if status = .confirmed ∧ o.confirmed_at = none then { o with confirmed_at := some now }
  else if status = .shipped ∧ o.shipped_at = none then { o with shipped_at := some now }
  else if status = .delivered ∧ o.delivered_at = none then { o with delivered_at := some now }
  else o

/-- The `if notes:` block of `OrderRepository.update_order_status`: append a
timestamped note line when a non-empty note string is supplied (Python
truthiness: both `None` and `""` are skipped). -/
def apply_notes (now : ℕ) (notes : Option String) (o : Order) : Order :=
  match notes with
  | some s => if s ≠ "" then { o with notes := some (appendNote o.notes now s) } else o
  | none => o

/-- `OrderRepository.update_order_status`: load the order (`none` when
absent), set the status unconditionally, stamp milestone timestamps on
first entry, append the optional note, persist. -/
def update_order_status (now : ℕ) (store : OrderStore) (order_id : String)
    (status : OrderStatus) (notes : Option String) : Option Order × OrderStore :=
  match storeGet store order_id with
  | none => (none, store)
  | some o =>
    let o' := apply_notes now notes
      (stamp_milestones now status { o with status := status, updated_at := now })
    (some o', storeSet store order_id o')

/-- The milestone timestamp field corresponding to a status (helper for
stating the stamping claims). -/
def milestone_at (s : OrderStatus) (o : Order) : Option ℕ :=
  match s with
  | .confirmed => o.confirmed_at
  | .shipped => o.shipped_at
  | .delivered => o.delivered_at
  | _ => none

/-! ## External service clients (src/order_service/app/utils/external_services.py) -/

/-- The identity returned by `UserServiceClient.verify_user_token`. -/
structure UserInfo where
  id : String
  email : String
  deriving DecidableEq, Repr

/-- Product data as seen by the order service over HTTP. -/
structure ProductInfo where
  name : String
  sku : Option String
  price : ℚ
  is_available : Bool
  stock_quantity : ℤ
  deriving DecidableEq, Repr

/-- Outcome of `ProductServiceClient.get_product_by_id` together with the
exception path of `check_product_availability`: a 200 response with a
product, any non-200/exception inside the lookup (normalised to `None`
by the client), or an exception raised outside the lookup (the
`except` branch of `check_product_availability`). -/
inductive ProductLookup where
  | ok (p : ProductInfo)
  | notFound
  | raised
  deriving DecidableEq

/-- Result of `ProductServiceClient.check_product_availability`. -/
structure Availability where
  available : Bool
  reason : Option String
  available_quantity : ℤ
  product : Option ProductInfo
  deriving DecidableEq, Repr

/-- `ProductServiceClient.check_product_availability`: not-found,
not-available, insufficient-stock and service-error cases, else the
product with its stock. -/
def check_product_availability (lookup : String → ProductLookup)
    (product_id : String) (quantity : ℕ) : Availability :=
  match lookup product_id with
  | .raised => ⟨false, some "Service error", 0, none⟩
  | .notFound => ⟨false, some "Product not found", 0, none⟩
  | .ok p =>
    if ¬ p.is_available then ⟨false, some "Product not available", 0, none⟩
    else if p.stock_quantity < (quantity : ℤ) then
      ⟨false, some "Insufficient stock", p.stock_quantity, none⟩
    else ⟨true, none, p.stock_quantity, some p⟩

/-- One entry of the `reservations` list built by
`ProductServiceClient.reserve_products`. -/
structure Reservation where
  product_id : String
  quantity : ℕ
  reserved : Bool
  reason : Option String
  product : Option ProductInfo
  deriving DecidableEq, Repr

/-- A requested order line (`OrderItemCreate`: product id and quantity). -/
structure ReqItem where
  product_id : String
  quantity : ℕ
  deriving DecidableEq, Repr

/-- The reservation built for one requested line inside
`ProductServiceClient.reserve_products`. -/
def mk_reservation (lookup : String → ProductLookup) (item : ReqItem) : Reservation :=
  let a := check_product_availability lookup item.product_id item.quantity
  if a.available then ⟨item.product_id, item.quantity, true, none, a.product⟩
  else ⟨item.product_id, item.quantity, false, a.reason, none⟩

/-- Result dictionary of `ProductServiceClient.reserve_products`. -/
structure ReserveResult where
  success : Bool
  total_items : ℕ
  reserved_items : ℕ
  reservations : List Reservation
  deriving DecidableEq, Repr

/-- `ProductServiceClient.reserve_products`: check availability line by
line; `success` iff the count of reserved lines equals the number of
requested lines. -/
def reserve_products (lookup : String → ProductLookup) (items : List ReqItem) :
    ReserveResult :=
  let reservations := items.map (mk_reservation lookup)
  let total_reserved := (reservations.filter (fun r => r.reserved)).length
  ⟨total_reserved == items.length, items.length, total_reserved, reservations⟩

/-! ## Kafka producer (src/order_service/app/utils/kafka_producer.py) -/

/-- What the transport does when `producer.send_and_wait` is reached:
succeeds, raises `KafkaError`, or raises some other exception. -/
inductive PublishOutcome where
  | ok
  | kafkaError
  | otherError
  deriving DecidableEq, Repr

/-- The producer state plus the transport's behaviour for the next publish. -/
structure KafkaState where
  kafka_enabled : Bool
  producer_started : Bool
  publish : PublishOutcome
  deriving DecidableEq, Repr

/-- Observable outcome of `KafkaProducer.send_event`: both exception
branches are caught and logged, so the call always returns normally. -/
inductive SendOutcome where
  | skipped
  | sent
  | errorLogged
  deriving DecidableEq, Repr

/-- `KafkaProducer.send_event`: a silent no-op when the transport is
disabled or the producer is unavailable; publish failures are caught
(`except KafkaError` / `except Exception`) and only logged. -/
def send_event (k : KafkaState) (topic : String) : SendOutcome :=
  if ¬ k.kafka_enabled ∨ ¬ k.producer_started then .skipped
  else
    match k.publish with
    | .ok => .sent
    | .kafkaError => .errorLogged
    | .otherError => .errorLogged

/-! ## Order service (src/order_service/app/services/order_service.py) -/

/-- The order service's external dependencies. -/
structure CreateEnv where
  verify_token : String → Option UserInfo
  lookup : String → ProductLookup

/-- The per-failing-line error details built inside
`OrderService.create_order` when reservation fails:
one `"Product <id>: <reason>"` entry per failing reservation. -/
def reservation_error_details (rs : List Reservation) : List String :=
  (rs.filter (fun r => ¬ r.reserved)).map
    (fun r => "Product " ++ r.product_id ++ ": " ++ r.reason.getD "Unknown error")

/-- The order-item construction loop of `OrderService.create_order`: zip the
requested lines with their reservations, and for each reserved line build
an `OrderItem` snapshotting the product's name/sku/price (the pydantic
validator then fixes `total_price = round(price*qty, 2)`). -/
def build_order_items (req : List ReqItem) (rs : List Reservation) : List OrderItem :=
  (req.zip rs).filterMap (fun pr =>
    if pr.2.reserved then
      match pr.2.product with
      | some p => some (OrderItem.validate
          ⟨pr.1.product_id, p.name, p.sku, p.price, pr.1.quantity,
           p.price * (pr.1.quantity : ℚ)⟩)
      | none => none
    else none)

/-- `OrderService.create_order`: verify the token (401 on failure), reserve
every requested line (400 enumerating the failing lines' reasons when any
fails, writing nothing), else build the items, compute
subtotal / 8% tax / 10-under-100 shipping, persist the validated order as
pending/pending, attempt the `order.created` event emission (outcome
discarded), and return the order.  `oid` stands for the generated
document identifier and `order_number` for the generated order number. -/
def create_order (env : CreateEnv) (k : KafkaState) (oid order_number : String)
    (store : OrderStore) (req : List ReqItem) (notes : Option String)
    (token : String) : Except Err Order × OrderStore :=
  match env.verify_token token with
  | none => (.error ⟨401, "Invalid or expired token"⟩, store)
  | some u =>
    let result := reserve_products env.lookup req
    if ¬ result.success then
      (.error ⟨400, "Product reservation failed: " ++
        String.intercalate "; " (reservation_error_details result.reservations)⟩,
       store)
    else
      let order_items := build_order_items req result.reservations
      let subtotal := (order_items.map OrderItem.total_price).sum
      let tax_amount := round2 (subtotal * (8/100))
      let shipping_cost : ℚ := if subtotal < 100 then 10 else 0
      let total_amount := subtotal + tax_amount + shipping_cost
      let order := Order.validate
        { order_number := order_number
          user_id := u.id
          user_email := u.email
          items := order_items
          subtotal := subtotal
          tax_amount := tax_amount
          shipping_cost := shipping_cost
          discount_amount := 0
          total_amount := total_amount
          status := .pending
          payment_status := .pending
          notes := notes }
      let _ := send_event k "order-events"
      (.ok order, (oid, order) :: store)

/-- `OrderService.update_order_status`: delegate to the repository and map
the missing-order case to a 404. -/
def service_update_order_status (now : ℕ) (store : OrderStore) (order_id : String)
    (status : OrderStatus) (notes : Option String) : Except Err Order × OrderStore :=
  match update_order_status now store order_id status notes with
  | (none, store') => (.error ⟨404, "Order not found"⟩, store')
  | (some o, store') => (.ok o, store')

/-- `OrderService.cancel_order`: verify the token (401), load the order
(404), check ownership (403), check cancellability (400), then delegate to
the repository's status update with status `cancelled` and the note
`"Cancelled by customer"`.  The final branch is unreachable (the order was
just loaded); in Python it would surface as an unhandled error (500). -/
def cancel_order (env : CreateEnv) (now : ℕ) (store : OrderStore)
    (order_id : String) (token : String) : Except Err Order × OrderStore :=
  match env.verify_token token with
  | none => (.error ⟨401, "Invalid or expired token"⟩, store)
  | some u =>
    match storeGet store order_id with
    | none => (.error ⟨404, "Order not found"⟩, store)
    | some o =>
      if o.user_id ≠ u.id then (.error ⟨403, "Access denied"⟩, store)
      else if ¬ o.is_cancellable then
        (.error ⟨400, "Order cannot be cancelled in " ++ statusText o.status ++ " status"⟩,
         store)
      else
        match update_order_status now store order_id .cancelled
            (some "Cancelled by customer") with
        | (some o', store') => (.ok o', store')
        | (none, store') => (.error ⟨500, "Internal Server Error"⟩, store')

/-! ## User service (src/user_service/app) -/

/-- `User` document (fields used by the claims). -/
structure User where
  name : String
  email : String
  password_hash : String
  is_active : Bool
  deriving DecidableEq, Repr

/-- `UserRepository.user_exists`: a user with this email address exists. -/
def user_exists (store : List User) (email : String) : Bool :=
  (store.find? (fun u => u.email == email)).isSome

/-- `UserService.register_user`: reject an already-registered email with a
400, else hash the password and insert the user.  `hash` stands for
`AuthUtils.hash_password`. -/
def register_user (hash : String → String) (store : List User)
    (name email password : String) : Except Err User × List User :=
  if user_exists store email then
    (.error ⟨400, "User with this email already exists"⟩, store)
  else
    let u : User := ⟨name, email, hash password, true⟩
    (.ok u, store ++ [u])

/-! ## Product service (src/product_service/app) -/

/-- `Category` document (fields used by the claims). -/
structure Category where
  name : String
  description : Option String
  is_active : Bool
  deriving DecidableEq, Repr

/-- `Product` document (fields used by the claims). -/
structure Product where
  name : String
  price : ℚ
  category_id : Option String
  category_name : Option String
  sku : Option String
  stock_quantity : ℤ
  is_available : Bool
  is_active : Bool
  deriving DecidableEq, Repr

/-- The product and category collections. -/
abbrev ProductStore := List (String × Product)

/-- `CategoryRepository.get_category_by_name`: first category with this name. -/
def get_category_by_name (cats : List (String × Category)) (name : String) :
    Option Category :=
  ((cats.map (·.2)).find? (fun c => c.name == name))

/-- `CategoryService.create_category`: reject a duplicate category name with
a 400, else insert the category as active. -/
def create_category (cats : List (String × Category)) (new_id : String)
    (name : String) (description : Option String) :
    Except Err Category × List (String × Category) :=
  if (get_category_by_name cats name).isSome then
    (.error ⟨400, "Category with this name already exists"⟩, cats)
  else
    let c : Category := ⟨name, description, true⟩
    (.ok c, cats ++ [(new_id, c)])

/-- `ProductRepository.get_product_by_sku`: first product with this SKU. -/
def get_product_by_sku (store : ProductStore) (sku : String) : Option Product :=
  ((store.map (·.2)).find? (fun p => p.sku == some sku))

/-- The data accepted by `ProductService.create_product` (fields used by
the claims). -/
structure ProductCreateData where
  name : String
  price : ℚ
  sku : Option String
  category_id : Option String
  stock_quantity : ℤ
  is_available : Bool
  deriving DecidableEq, Repr

/-- `ProductService.create_product`: reject a duplicate SKU with a 400
(Python truthiness: an absent or empty SKU skips the check), reject an
unknown category with a 400, else insert the product with the category
name denormalised onto it. -/
def create_product (store : ProductStore) (cats : List (String × Category))
    (new_id : String) (d : ProductCreateData) : Except Err Product × ProductStore :=
  let sku_dup := match d.sku with
    | some sk => if sk = "" then false else (get_product_by_sku store sk).isSome
    | none => false
  if sku_dup then
    (.error ⟨400, "Product with this SKU already exists"⟩, store)
  else
    match d.category_id with
    | some cid =>
      match storeGet cats cid with
      | none => (.error ⟨400, "Category not found"⟩, store)
      | some c =>
        let p : Product := ⟨d.name, d.price, some cid, some c.name, d.sku,
          d.stock_quantity, d.is_available, true⟩
        (.ok p, store ++ [(new_id, p)])
    | none =>
      let p : Product := ⟨d.name, d.price, none, none, d.sku,
        d.stock_quantity, d.is_available, true⟩
      (.ok p, store ++ [(new_id, p)])

/-- `ProductRepository.update_stock`: load the product (`none` when absent),
reject a delta that would drive the stock negative (`none`, nothing
written), else persist the new quantity and set `is_available` to the
positivity of the new quantity. -/
def update_stock (store : ProductStore) (product_id : String)
    (quantity_change : ℤ) : Option Product × ProductStore :=
  match storeGet store product_id with
  | none => (none, store)
  | some p =>
    let new_quantity := p.stock_quantity + quantity_change
    if new_quantity < 0 then (none, store)
    else
      let p' := { p with stock_quantity := new_quantity,
                         is_available := decide (new_quantity > 0) }
      (some p', storeSet store product_id p')

/-- `ProductService.update_stock`: delegate to the repository and map the
`None` result (missing product or insufficient stock) to a 400. -/
def service_update_stock (store : ProductStore) (product_id : String)
    (quantity_change : ℤ) : Except Err Product × ProductStore :=
  match update_stock store product_id quantity_change with
  | (none, store') => (.error ⟨400, "Product not found or insufficient stock"⟩, store')
  | (some p, store') => (.ok p, store')

/-! ## Concrete fixtures (used by the witness theorems) -/

/-- The order an operation returned, if it succeeded. -/
def result_order (x : Except Err Order × OrderStore) : Option Order :=
  match x.1 with
  | .ok o => some o
  | .error _ => none

/-- A verified identity. -/
def exUser : UserInfo := ⟨"u1", "u@example.com"⟩

/-- An available product priced 30 with 5 in stock. -/
def exWidget : ProductInfo := ⟨"Widget", none, 30, true, 5⟩

/-- An environment where token `"tok"` verifies and product `"A"` is
`exWidget`. -/
def exEnv : CreateEnv :=
  ⟨fun t => if t == "tok" then some exUser else none,
   fun pid => if pid == "A" then .ok exWidget else .notFound⟩

/-- An environment where token `"tok"` verifies but no product resolves. -/
def exEnvDown : CreateEnv :=
  ⟨fun t => if t == "tok" then some exUser else none,
   fun _ => .notFound⟩

/-- A disabled event transport. -/
def exKafkaOff : KafkaState := ⟨false, false, .ok⟩

/-- An enabled event transport whose next publish raises `KafkaError`. -/
def exKafkaFail : KafkaState := ⟨true, true, .kafkaError⟩

/-- The example request: quantity 2 of product `"A"`. -/
def exReq : List ReqItem := [⟨"A", 2⟩]

/-- A pending order owned by user `"u1"`. -/
def exPendingOrder : Order :=
  { order_number := "ORD-1", user_id := "u1", user_email := "u@example.com",
    items := [], subtotal := 0, tax_amount := 0, shipping_cost := 0,
    discount_amount := 0, total_amount := 0,
    status := OrderStatus.pending, payment_status := PaymentStatus.pending }

/-- The same order already shipped. -/
def exShippedOrder : Order := { exPendingOrder with status := OrderStatus.shipped }

/-- An order store holding the pending order under id `"o1"`. -/
def exOrders : OrderStore := [("o1", exPendingOrder)]

/-- An order store holding the shipped order under id `"o1"`. -/
def exOrdersShipped : OrderStore := [("o1", exShippedOrder)]

/-- A user store with one registered email. -/
def exUsers : List User := [⟨"Alice", "a@b.c", "h", true⟩]

/-- A category store with one category named `"Books"`. -/
def exCats : List (String × Category) := [("c1", ⟨"Books", none, true⟩)]

/-- A stored product with SKU `"SKU1"` and 5 in stock. -/
def exProd : Product := ⟨"Widget", 30, none, none, some "SKU1", 5, true, true⟩

/-- A product store holding `exProd` under id `"p1"`. -/
def exProducts : ProductStore := [("p1", exProd)]

/-- `exProd` after its stock was driven to zero. -/
def exSoldOut : Product := ⟨"Widget", 30, none, none, some "SKU1", 0, false, true⟩

/-- Product-creation data whose SKU duplicates `exProd`. -/
def exPData : ProductCreateData := ⟨"Widget Two", 5, some "SKU1", none, 0, true⟩

/-! ## Rounding lemmas -/

theorem roundHalfEven_intCast (k : ℤ) : roundHalfEven (k : ℚ) = k := by
  unfold roundHalfEven
  rw [Int.floor_intCast]
  norm_num

theorem isCents_round2 (q : ℚ) : isCents (round2 q) :=
  ⟨roundHalfEven (q * 100), rfl⟩

theorem round2_eq_self {q : ℚ} (h : isCents q) : round2 q = q := by
  obtain ⟨k, rfl⟩ := h
  unfold round2
  rw [div_mul_cancel₀ _ (by norm_num : (100 : ℚ) ≠ 0), roundHalfEven_intCast]

theorem isCents_zero : isCents 0 := ⟨0, by norm_num⟩

theorem isCents_add {a b : ℚ} (ha : isCents a) (hb : isCents b) : isCents (a + b) := by
  obtain ⟨k, rfl⟩ := ha
  obtain ⟨l, rfl⟩ := hb
  exact ⟨k + l, by push_cast; ring⟩

theorem isCents_sum {l : List ℚ} (h : ∀ x ∈ l, isCents x) : isCents l.sum := by
  induction l with
  | nil => simpa using isCents_zero
  | cons a tl ih =>
    rw [List.sum_cons]
    exact isCents_add (h a (by simp)) (ih fun x hx => h x (by simp [hx]))

theorem roundHalfEven_nonneg {q : ℚ} (h : 0 ≤ q) : 0 ≤ roundHalfEven q := by
  unfold roundHalfEven
  have hf : (0 : ℤ) ≤ ⌊q⌋ := Int.floor_nonneg.mpr h
  split_ifs <;> omega

theorem round2_nonneg {q : ℚ} (h : 0 ≤ q) : 0 ≤ round2 q := by
  unfold round2
  have h1 : (0 : ℤ) ≤ roundHalfEven (q * 100) :=
    roundHalfEven_nonneg (by positivity)
  have h2 : (0 : ℚ) ≤ (roundHalfEven (q * 100) : ℚ) := by exact_mod_cast h1
  positivity

/-! ## Store lemmas -/

theorem storeGet_cons {α : Type} (e : String × α) (tl : List (String × α)) (k : String) :
    storeGet (e :: tl) k = if e.1 == k then some e.2 else storeGet tl k := by
  unfold storeGet
  cases he : e.1 == k <;> simp [List.find?_cons, he]

theorem storeGet_storeSet {α : Type} {s : List (String × α)} {k : String} {v : α}
    (v' : α) (h : storeGet s k = some v) :
    storeGet (storeSet s k v') k = some v' := by
  induction s with
  | nil => simp [storeGet] at h
  | cons e tl ih =>
    rw [storeGet_cons] at h
    by_cases he : e.1 = k
    · have hb : (e.1 == k) = true := beq_iff_eq.mpr he
      simp only [storeSet, List.map_cons, hb, if_true, storeGet_cons]
      simp
    · have hb : (e.1 == k) = false := beq_eq_false_iff_ne.mpr he
      rw [hb] at h
      simp only [Bool.false_eq_true, if_false] at h
      simp only [storeSet, List.map_cons, hb, Bool.false_eq_true, if_false, storeGet_cons]
      exact ih h

theorem mem_storeSet {α : Type} {s : List (String × α)} {k : String} {v : α}
    {e : String × α} (h : e ∈ storeSet s k v) : e = (k, v) ∨ e ∈ s := by
  unfold storeSet at h
  rw [List.mem_map] at h
  obtain ⟨a, ha, hae⟩ := h
  by_cases hk : a.1 = k
  · have hb : (a.1 == k) = true := beq_iff_eq.mpr hk
    rw [hb, if_pos rfl] at hae
    exact Or.inl hae.symm
  · have hb : (a.1 == k) = false := beq_eq_false_iff_ne.mpr hk
    rw [hb] at hae
    simp only [Bool.false_eq_true, if_false] at hae
    exact Or.inr (hae ▸ ha)

/-! ## Order validator lemmas -/

theorem Order_validate_items (o : Order) : (Order.validate o).items = o.items := rfl

theorem Order_validate_tax (o : Order) :
    (Order.validate o).tax_amount = o.tax_amount := rfl

theorem Order_validate_shipping (o : Order) :
    (Order.validate o).shipping_cost = o.shipping_cost := rfl

theorem Order_validate_discount (o : Order) :
    (Order.validate o).discount_amount = o.discount_amount := rfl

theorem Order_validate_subtotal (o : Order) :
    (Order.validate o).subtotal =
      if o.items.isEmpty then pyOrZero o.subtotal
      else round2 ((o.items.map OrderItem.total_price).sum) := rfl

theorem Order_validate_total (o : Order) :
    (Order.validate o).total_amount =
      round2 (max ((Order.validate o).subtotal + o.tax_amount + o.shipping_cost
        - o.discount_amount) 0) := rfl

/-! ## Reservation lemmas -/

theorem reserve_success_of_all {lookup : String → ProductLookup} {items : List ReqItem}
    (h : ∀ r ∈ (reserve_products lookup items).reservations, r.reserved = true) :
    (reserve_products lookup items).success = true := by
  unfold reserve_products at h ⊢
  simp only at h ⊢
  rw [List.filter_eq_self.mpr h, List.length_map]
  simp

theorem reserve_failure_of_exists {lookup : String → ProductLookup} {items : List ReqItem}
    (h : ∃ r ∈ (reserve_products lookup items).reservations, r.reserved = false) :
    (reserve_products lookup items).success = false := by
  unfold reserve_products at h ⊢
  simp only at h ⊢
  obtain ⟨r, hr, hfalse⟩ := h
  have hlt : ((items.map (mk_reservation lookup)).filter (fun r => r.reserved)).length
      < (items.map (mk_reservation lookup)).length := by
    rw [List.length_filter_lt_length_iff_exists]
    exact ⟨r, hr, by simp [hfalse]⟩
  rw [List.length_map] at hlt
  exact beq_eq_false_iff_ne.mpr (Nat.ne_of_lt hlt)

theorem isCents_build_total {req : List ReqItem} {rs : List Reservation} :
    ∀ it ∈ build_order_items req rs, isCents it.total_price := by
  intro it hit
  unfold build_order_items at hit
  rw [List.mem_filterMap] at hit
  obtain ⟨pr, _, hpr⟩ := hit
  by_cases hres : pr.2.reserved = true
  · rw [if_pos hres] at hpr
    cases hp : pr.2.product with
    | none => rw [hp] at hpr; simp at hpr
    | some p =>
      rw [hp] at hpr
      simp only [Option.some_inj] at hpr
      rw [← hpr]
      exact isCents_round2 _
  · rw [if_neg hres] at hpr
    simp at hpr

theorem build_total_nonneg {req : List ReqItem} {rs : List Reservation}
    (h : ∀ r ∈ rs, ∀ p, r.product = some p → 0 ≤ p.price) :
    ∀ it ∈ build_order_items req rs, 0 ≤ it.total_price := by
  intro it hit
  unfold build_order_items at hit
  rw [List.mem_filterMap] at hit
  obtain ⟨pr, hmem, hpr⟩ := hit
  have hr : pr.2 ∈ rs := (List.of_mem_zip hmem).2
  by_cases hres : pr.2.reserved = true
  · rw [if_pos hres] at hpr
    cases hp : pr.2.product with
    | none => rw [hp] at hpr; simp at hpr
    | some p =>
      rw [hp] at hpr
      simp only [Option.some_inj] at hpr
      rw [← hpr]
      exact round2_nonneg (mul_nonneg (h _ hr p hp) (by positivity))
  · rw [if_neg hres] at hpr
    simp at hpr

/-- The pricing equations satisfied by a validated order whose raw fields
were computed the way `OrderService.create_order` computes them. -/
theorem created_totals (o : Order)
    (hsub : o.subtotal = (o.items.map OrderItem.total_price).sum)
    (htax : o.tax_amount = round2 (o.subtotal * (8/100)))
    (hship : o.shipping_cost = if o.subtotal < 100 then (10:ℚ) else 0)
    (hdisc : o.discount_amount = 0)
    (hC : ∀ it ∈ o.items, isCents it.total_price)
    (hN : ∀ it ∈ o.items, 0 ≤ it.total_price) :
    (Order.validate o).subtotal = ((Order.validate o).items.map OrderItem.total_price).sum ∧
    (Order.validate o).tax_amount = round2 ((Order.validate o).subtotal * (8/100)) ∧
    (Order.validate o).shipping_cost =
      (if (Order.validate o).subtotal < 100 then (10:ℚ) else 0) ∧
    (Order.validate o).total_amount =
      round2 ((Order.validate o).subtotal + (Order.validate o).tax_amount
        + (Order.validate o).shipping_cost) := by
  have hsum0 : 0 ≤ (o.items.map OrderItem.total_price).sum := by
    apply List.sum_nonneg
    intro x hx
    rw [List.mem_map] at hx
    obtain ⟨it, hit, hx⟩ := hx
    rw [← hx]
    exact hN it hit
  have hS : (Order.validate o).subtotal = o.subtotal := by
    rw [Order_validate_subtotal]
    by_cases he : o.items.isEmpty
    · rw [if_pos he, hsub, List.isEmpty_iff.mp he]
      simp [pyOrZero]
    · rw [if_neg he, hsub]
      apply round2_eq_self
      apply isCents_sum
      intro x hx
      rw [List.mem_map] at hx
      obtain ⟨it, hit, hx⟩ := hx
      rw [← hx]
      exact hC it hit
  have htax0 : 0 ≤ o.tax_amount := by
    rw [htax, hsub]
    exact round2_nonneg (mul_nonneg hsum0 (by norm_num))
  have hship0 : 0 ≤ o.shipping_cost := by
    rw [hship]
    split_ifs <;> norm_num
  refine ⟨?_, ?_, ?_, ?_⟩
  · rw [hS, Order_validate_items, hsub]
  · rw [Order_validate_tax, hS, htax]
  · rw [Order_validate_shipping, hS, hship]
  · rw [Order_validate_total, Order_validate_tax, Order_validate_shipping, hdisc, sub_zero]
    congr 1
    apply max_eq_left
    have : 0 ≤ o.subtotal := hsub ▸ hsum0
    rw [hS]
    positivity

/-! ## Status-update lemmas -/

theorem status_stamp_milestones (now : ℕ) (st : OrderStatus) (o : Order) :
    (stamp_milestones now st o).status = o.status := by
  unfold stamp_milestones
  split_ifs <;> rfl

theorem notes_stamp_milestones (now : ℕ) (st : OrderStatus) (o : Order) :
    (stamp_milestones now st o).notes = o.notes := by
  unfold stamp_milestones
  split_ifs <;> rfl

theorem status_apply_notes (now : ℕ) (notes : Option String) (o : Order) :
    (apply_notes now notes o).status = o.status := by
  unfold apply_notes
  cases notes with
  | none => rfl
  | some s => dsimp only; split_ifs <;> rfl

theorem milestone_at_apply_notes (st : OrderStatus) (now : ℕ) (notes : Option String)
    (o : Order) : milestone_at st (apply_notes now notes o) = milestone_at st o := by
  unfold apply_notes
  cases notes with
  | none => rfl
  | some s =>
    dsimp only
    split_ifs with h
    · cases st <;> rfl
    · rfl

theorem milestone_at_set_status (st st' : OrderStatus) (now : ℕ) (o : Order) :
    milestone_at st { o with status := st', updated_at := now } = milestone_at st o := by
  cases st <;> rfl

theorem milestone_at_stamp (now : ℕ) (st : OrderStatus) (o : Order)
    (h : st = .confirmed ∨ st = .shipped ∨ st = .delivered) :
    milestone_at st (stamp_milestones now st o) = some ((milestone_at st o).getD now) := by
  rcases h with rfl | rfl | rfl
  · unfold stamp_milestones milestone_at
    cases hc : o.confirmed_at <;> simp [hc]
  · unfold stamp_milestones milestone_at
    cases hc : o.shipped_at <;> simp [hc]
  · unfold stamp_milestones milestone_at
    cases hc : o.delivered_at <;> simp [hc]

theorem update_order_status_of_get_some {now : ℕ} {store : OrderStore} {order_id : String}
    {st : OrderStatus} {notes : Option String} {o : Order}
    (h : storeGet store order_id = some o) :
    update_order_status now store order_id st notes =
      (some (apply_notes now notes
         (stamp_milestones now st { o with status := st, updated_at := now })),
       storeSet store order_id (apply_notes now notes
         (stamp_milestones now st { o with status := st, updated_at := now }))) := by
  unfold update_order_status
  rw [h]

theorem update_order_status_of_get_none {now : ℕ} {store : OrderStore} {order_id : String}
    {st : OrderStatus} {notes : Option String}
    (h : storeGet store order_id = none) :
    update_order_status now store order_id st notes = (none, store) := by
  unfold update_order_status
  rw [h]

/-! ## Claims -/

/-- C1: for every order created through `create_order` in which every
requested line reserves successfully, the persisted order's subtotal
equals the sum of the line totals, `tax_amount` equals
`round(subtotal × 0.08, 2)`, `shipping_cost` equals 10.00 if
subtotal < 100 and 0.00 otherwise, and `total_amount` equals
`round(subtotal + tax_amount + shipping_cost, 2)`.  (The particular case
items = [qty 2 at price 30] giving 60 / 4.80 / 10 / 74.80 is the
witness.)  The nonnegativity hypothesis on reserved product prices
reflects the `price > 0` constraint on the product model. -/
theorem claim_C1 (env : CreateEnv) (k : KafkaState) (oid order_number : String)
    (store : OrderStore) (req : List ReqItem) (notes : Option String) (token : String)
    (u : UserInfo) (hu : env.verify_token token = some u)
    (hres : ∀ r ∈ (reserve_products env.lookup req).reservations, r.reserved = true)
    (hprice : ∀ r ∈ (reserve_products env.lookup req).reservations,
      ∀ p, r.product = some p → 0 ≤ p.price) :
    ∃ o, create_order env k oid order_number store req notes token =
        (.ok o, (oid, o) :: store) ∧
      o.subtotal = (o.items.map OrderItem.total_price).sum ∧
      o.tax_amount = round2 (o.subtotal * (8/100)) ∧
      o.shipping_cost = (if o.subtotal < 100 then (10:ℚ) else 0) ∧
      o.total_amount = round2 (o.subtotal + o.tax_amount + o.shipping_cost) := by
  have hs := reserve_success_of_all hres
  unfold create_order
  rw [hu]
  simp only [hs, eq_self_iff_true, not_true, if_false, ite_false]
  exact ⟨_, rfl, created_totals _ rfl rfl rfl rfl isCents_build_total
    (build_total_nonneg hprice)⟩

/-- C2: when at least one requested line fails reservation, `create_order`
fails with a 400 whose detail enumerates each failing line's
`"Product <id>: <reason>"` entry, and the order store is unchanged
(no order is written). -/
theorem claim_C2 (env : CreateEnv) (k : KafkaState) (oid order_number : String)
    (store : OrderStore) (req : List ReqItem) (notes : Option String) (token : String)
    (u : UserInfo) (hu : env.verify_token token = some u)
    (hfail : ∃ r ∈ (reserve_products env.lookup req).reservations, r.reserved = false) :
    create_order env k oid order_number store req notes token =
      (.error ⟨400, "Product reservation failed: " ++ String.intercalate "; "
          (reservation_error_details (reserve_products env.lookup req).reservations)⟩,
       store) := by
  have hs := reserve_failure_of_exists hfail
  unfold create_order
  rw [hu]
  simp only [hs, Bool.false_eq_true, not_false_eq_true, if_true]

/-- C3: `cancel_order` fails 401 when the token does not resolve, else 404
when the order is absent, else 403 when the resolved user does not own the
order, else 400 when the status is shipped/delivered/cancelled/refunded,
and otherwise (pending/confirmed/processing) succeeds, setting the status
to cancelled and appending the timestamped "Cancelled by customer" note. -/
theorem claim_C3 (env : CreateEnv) (now : ℕ) (store : OrderStore)
    (order_id token : String) :
    (env.verify_token token = none →
      cancel_order env now store order_id token =
        (.error ⟨401, "Invalid or expired token"⟩, store)) ∧
    (∀ u, env.verify_token token = some u → storeGet store order_id = none →
      cancel_order env now store order_id token =
        (.error ⟨404, "Order not found"⟩, store)) ∧
    (∀ u o, env.verify_token token = some u → storeGet store order_id = some o →
      o.user_id ≠ u.id →
      cancel_order env now store order_id token =
        (.error ⟨403, "Access denied"⟩, store)) ∧
    (∀ u o, env.verify_token token = some u → storeGet store order_id = some o →
      o.user_id = u.id →
      (o.status = .shipped ∨ o.status = .delivered ∨ o.status = .cancelled ∨
        o.status = .refunded) →
      cancel_order env now store order_id token =
        (.error ⟨400, "Order cannot be cancelled in " ++ statusText o.status
          ++ " status"⟩, store)) ∧
    (∀ u o, env.verify_token token = some u → storeGet store order_id = some o →
      o.user_id = u.id →
      (o.status = .pending ∨ o.status = .confirmed ∨ o.status = .processing) →
      ∃ o', cancel_order env now store order_id token =
          (.ok o', storeSet store order_id o') ∧
        o'.status = .cancelled ∧
        o'.notes = some (appendNote o.notes now "Cancelled by customer")) := by
  refine ⟨?_, ?_, ?_, ?_, ?_⟩
  · intro h
    unfold cancel_order
    rw [h]
  · intro u hu h
    unfold cancel_order
    rw [hu, h]
  · intro u o hu h hown
    unfold cancel_order
    rw [hu, h]
    dsimp only
    rw [if_pos hown]
  · intro u o hu h hown hstat
    have hcan : o.is_cancellable = false := by
      rcases hstat with h' | h' | h' | h' <;> simp [Order.is_cancellable, h']
    unfold cancel_order
    rw [hu, h]
    dsimp only
    rw [if_neg (not_not_intro hown), if_pos (by simp [hcan])]
  · intro u o hu h hown hstat
    have hcan : o.is_cancellable = true := by
      rcases hstat with h' | h' | h' <;> simp [Order.is_cancellable, h']
    unfold cancel_order
    rw [hu, h]
    dsimp only
    rw [if_neg (not_not_intro hown), if_neg (by simp [hcan]),
      update_order_status_of_get_some h]
    refine ⟨apply_notes now (some "Cancelled by customer")
      (stamp_milestones now .cancelled { o with status := .cancelled, updated_at := now }),
      rfl, ?_, ?_⟩
    · rw [status_apply_notes, status_stamp_milestones]
    · unfold apply_notes
      dsimp only
      rw [if_pos (by decide)]
      simp [notes_stamp_milestones]

/-- C4: for each milestone status (confirmed/shipped/delivered),
`update_order_status` stamps the corresponding timestamp only when it is
unset: an already-set milestone timestamp is preserved, and applying the
same status a second time leaves the first stamp unchanged. -/
theorem claim_C4 (t1 t2 : ℕ) (store : OrderStore) (order_id : String)
    (st : OrderStatus) (n1 n2 : Option String) (o : Order)
    (hst : st = .confirmed ∨ st = .shipped ∨ st = .delivered)
    (hget : storeGet store order_id = some o) :
    (∀ t0, milestone_at st o = some t0 →
      ∃ o1, (update_order_status t1 store order_id st n1).1 = some o1 ∧
        milestone_at st o1 = some t0) ∧
    (milestone_at st o = none →
      ∃ o1 store1, update_order_status t1 store order_id st n1 = (some o1, store1) ∧
        milestone_at st o1 = some t1 ∧
        ∃ o2, (update_order_status t2 store1 order_id st n2).1 = some o2 ∧
          milestone_at st o2 = some t1) := by
  have key1 : milestone_at st (apply_notes t1 n1
      (stamp_milestones t1 st { o with status := st, updated_at := t1 })) =
      some ((milestone_at st o).getD t1) := by
    rw [milestone_at_apply_notes, milestone_at_stamp t1 st _ hst,
      milestone_at_set_status]
  constructor
  · intro t0 h0
    refine ⟨_, by rw [update_order_status_of_get_some hget], ?_⟩
    rw [key1, h0]
    rfl
  · intro h0
    have hmil1 : milestone_at st (apply_notes t1 n1
        (stamp_milestones t1 st { o with status := st, updated_at := t1 })) =
        some t1 := by rw [key1, h0]; rfl
    refine ⟨_, _, update_order_status_of_get_some hget, hmil1, ?_⟩
    have hget1 : storeGet (storeSet store order_id (apply_notes t1 n1
        (stamp_milestones t1 st { o with status := st, updated_at := t1 })))
        order_id = some _ := storeGet_storeSet _ hget
    refine ⟨_, by rw [update_order_status_of_get_some hget1], ?_⟩
    rw [milestone_at_apply_notes, milestone_at_stamp t2 st _ hst,
      milestone_at_set_status, hmil1]
    rfl

/-- C5: whatever raw values of subtotal, tax_amount, shipping_cost and
discount_amount are supplied, the validated order's `total_amount` equals
`round(max(subtotal + tax + shipping - discount, 0), 2)`, is therefore
never negative, and is never independently settable (a supplied
total_amount does not affect the constructed order at all). -/
theorem claim_C5 (o : Order) :
    (Order.validate o).total_amount =
      round2 (max ((Order.validate o).subtotal + o.tax_amount + o.shipping_cost
        - o.discount_amount) 0) ∧
    0 ≤ (Order.validate o).total_amount ∧
    ∀ t : ℚ, Order.validate { o with total_amount := t } = Order.validate o := by
  refine ⟨rfl, ?_, fun t => rfl⟩
  rw [Order_validate_total]
  exact round2_nonneg (le_max_right _ 0)

/-- C6: `update_order_status` through the service fails 404 when no order
with the given id exists, and otherwise sets the order's status to the
target status unconditionally — any status is reachable from any status —
and appends a timestamped note line when a non-empty note is supplied. -/
theorem claim_C6 (now : ℕ) (store : OrderStore) (order_id : String)
    (st : OrderStatus) (notes : Option String) :
    (storeGet store order_id = none →
      service_update_order_status now store order_id st notes =
        (.error ⟨404, "Order not found"⟩, store)) ∧
    (∀ o, storeGet store order_id = some o →
      ∃ o', service_update_order_status now store order_id st notes =
          (.ok o', storeSet store order_id o') ∧
        o'.status = st ∧
        ∀ s, notes = some s → s ≠ "" →
          o'.notes = some (appendNote o.notes now s)) := by
  constructor
  · intro h
    unfold service_update_order_status
    rw [update_order_status_of_get_none h]
  · intro o h
    refine ⟨apply_notes now notes
        (stamp_milestones now st { o with status := st, updated_at := now }),
      ?_, ?_, ?_⟩
    · unfold service_update_order_status
      rw [update_order_status_of_get_some h]
    · rw [status_apply_notes, status_stamp_milestones]
    · intro s hs hne
      subst hs
      unfold apply_notes
      dsimp only
      rw [if_pos hne]
      simp [notes_stamp_milestones]

/-- C7 (counterexample): registering a second user with an already
registered email fails with HTTP status 400 (BadRequest), not 409
(Conflict) as the claim states. -/
theorem claim_C7_counterexample :
    (register_user (fun s => s) exUsers "Bob" "a@b.c" "pw").1 =
      .error ⟨400, "User with this email already exists"⟩ ∧
    (400 : ℕ) ≠ 409 := by
  constructor
  · rfl
  · decide

/-- C7 (amended): creating an entity whose unique field duplicates an
existing one fails with BadRequest (HTTP 400) and writes nothing: a second
user with a registered email, a product with an existing non-empty SKU,
and a category with an existing name all fail with a 400. -/
theorem claim_C7_amended (hash : String → String) (ustore : List User)
    (name email pw : String) (pstore : ProductStore)
    (cats : List (String × Category)) (pid : String) (d : ProductCreateData)
    (sk : String) (cid cname : String) (cdesc : Option String) :
    (user_exists ustore email = true →
      register_user hash ustore name email pw =
        (.error ⟨400, "User with this email already exists"⟩, ustore)) ∧
    (d.sku = some sk → sk ≠ "" → (get_product_by_sku pstore sk).isSome = true →
      create_product pstore cats pid d =
        (.error ⟨400, "Product with this SKU already exists"⟩, pstore)) ∧
    ((get_category_by_name cats cname).isSome = true →
      create_category cats cid cname cdesc =
        (.error ⟨400, "Category with this name already exists"⟩, cats)) := by
  refine ⟨?_, ?_, ?_⟩
  · intro h
    unfold register_user
    rw [if_pos h]
  · intro hsku hne hdup
    unfold create_product
    rw [hsku]
    dsimp only
    rw [if_neg hne, if_pos hdup]
  · intro h
    unfold create_category
    rw [if_pos h]

/-- C8: a stock update whose delta would drive the quantity negative is
rejected — the repository returns no product and leaves the store
untouched, the service maps this to a 400 — and any store whose stock
quantities are all nonnegative still has only nonnegative stock
quantities after any stock update. -/
theorem claim_C8 (store : ProductStore) (product_id : String) (chg : ℤ) :
    (∀ p, storeGet store product_id = some p → p.stock_quantity + chg < 0 →
      update_stock store product_id chg = (none, store) ∧
      service_update_stock store product_id chg =
        (.error ⟨400, "Product not found or insufficient stock"⟩, store)) ∧
    ((∀ e ∈ store, 0 ≤ e.2.stock_quantity) →
      ∀ e ∈ (update_stock store product_id chg).2, 0 ≤ e.2.stock_quantity) := by
  constructor
  · intro p hget hneg
    have h1 : update_stock store product_id chg = (none, store) := by
      unfold update_stock
      rw [hget]
      dsimp only
      rw [if_pos hneg]
    refine ⟨h1, ?_⟩
    unfold service_update_stock
    rw [h1]
  · intro hinv e he
    revert he
    unfold update_stock
    cases hget : storeGet store product_id with
    | none => exact fun he => hinv e he
    | some p =>
      dsimp only
      split_ifs with hneg
      · exact fun he => hinv e he
      · intro he
        rcases mem_storeSet he with rfl | he'
        · dsimp only
          omega
        · exact hinv e he'

/-- C9: `send_event` is a silent no-op when the transport is disabled or
the producer is unavailable, it returns an outcome (never an exception)
for every transport behaviour, and the result of `create_order` — the
response and the stored orders — is independent of the transport state
and publish outcome, so a failed `order.created` emission does not fail
or roll back a successful creation. -/
theorem claim_C9 (k k1 k2 : KafkaState) (topic : String) (env : CreateEnv)
    (oid order_number : String) (store : OrderStore) (req : List ReqItem)
    (notes : Option String) (token : String) :
    (k.kafka_enabled = false ∨ k.producer_started = false →
      send_event k topic = .skipped) ∧
    create_order env k1 oid order_number store req notes token =
      create_order env k2 oid order_number store req notes token := by
  constructor
  · intro h
    unfold send_event
    rcases h with h | h <;> simp [h]
  · unfold create_order
    cases env.verify_token token <;> rfl

/-- C10: after every successful stock update the product's availability
flag equals the positivity of its new stock quantity, so an update that
drives the quantity to zero also marks the product unavailable. -/
theorem claim_C10 (store : ProductStore) (product_id : String) (chg : ℤ)
    (p' : Product) (h : (update_stock store product_id chg).1 = some p') :
    p'.is_available = decide (0 < p'.stock_quantity) := by
  revert h
  unfold update_stock
  cases hget : storeGet store product_id with
  | none => intro h; simp at h
  | some p =>
    dsimp only
    split_ifs with hneg
    · intro h
      simp at h
    · intro h
      simp only [Option.some_inj] at h
      rw [← h]

/-! ## Witnesses -/

/-- C1 witness: ordering 2 units of the price-30 widget yields
subtotal 60, tax 4.80, shipping 10 (since 60 < 100), total 74.80. -/
theorem claim_C1_witness :
    exEnv.verify_token "tok" = some exUser ∧
    (∀ r ∈ (reserve_products exEnv.lookup exReq).reservations, r.reserved = true) ∧
    (∃ o, create_order exEnv exKafkaOff "oid1" "ORD-2" [] exReq none "tok" =
        (.ok o, [("oid1", o)]) ∧
      o.subtotal = (o.items.map OrderItem.total_price).sum ∧
      o.tax_amount = round2 (o.subtotal * (8/100)) ∧
      o.shipping_cost = (if o.subtotal < 100 then (10:ℚ) else 0) ∧
      o.total_amount = round2 (o.subtotal + o.tax_amount + o.shipping_cost)) ∧
    (result_order (create_order exEnv exKafkaOff "oid1" "ORD-2" [] exReq none
        "tok")).map Order.subtotal = some 60 ∧
    (result_order (create_order exEnv exKafkaOff "oid1" "ORD-2" [] exReq none
        "tok")).map Order.tax_amount = some (24/5) ∧
    (result_order (create_order exEnv exKafkaOff "oid1" "ORD-2" [] exReq none
        "tok")).map Order.shipping_cost = some 10 ∧
    (result_order (create_order exEnv exKafkaOff "oid1" "ORD-2" [] exReq none
        "tok")).map Order.total_amount = some (374/5) := by
  have hu : exEnv.verify_token "tok" = some exUser := rfl
  have hres : ∀ r ∈ (reserve_products exEnv.lookup exReq).reservations,
      r.reserved = true := by decide
  have hprice : ∀ r ∈ (reserve_products exEnv.lookup exReq).reservations,
      ∀ p, r.product = some p → 0 ≤ p.price := by
    have hval : (reserve_products exEnv.lookup exReq).reservations =
        [⟨"A", 2, true, none, some exWidget⟩] := rfl
    rw [hval]
    intro r hr p hp
    rw [List.mem_singleton] at hr
    subst hr
    cases hp
    norm_num [exWidget]
  refine ⟨hu, hres,
    claim_C1 exEnv exKafkaOff "oid1" "ORD-2" [] exReq none "tok" exUser hu hres hprice,
    ?_, ?_, ?_, ?_⟩ <;>
  norm_num [result_order, create_order, exEnv, exUser, exWidget, exReq,
    reserve_products, mk_reservation, check_product_availability,
    build_order_items, OrderItem.validate, Order.validate, round2,
    roundHalfEven, pyOrZero, List.filterMap_cons, List.zip, List.zipWith,
    List.filter]

/-- C2 witness: requesting an unknown product makes `create_order` fail
with a 400 enumerating the failing line, and no order is written. -/
theorem claim_C2_witness :
    exEnvDown.verify_token "tok" = some exUser ∧
    (∃ r ∈ (reserve_products exEnvDown.lookup exReq).reservations,
      r.reserved = false) ∧
    create_order exEnvDown exKafkaOff "oid1" "ORD-2" [] exReq none "tok" =
      (.error ⟨400, "Product reservation failed: " ++ String.intercalate "; "
          (reservation_error_details
            (reserve_products exEnvDown.lookup exReq).reservations)⟩,
       []) ∧
    "Product reservation failed: " ++ String.intercalate "; "
        (reservation_error_details
          (reserve_products exEnvDown.lookup exReq).reservations) =
      "Product reservation failed: Product A: Product not found" := by
  have hu : exEnvDown.verify_token "tok" = some exUser := rfl
  have hf : ∃ r ∈ (reserve_products exEnvDown.lookup exReq).reservations,
      r.reserved = false := by decide
  exact ⟨hu, hf,
    claim_C2 exEnvDown exKafkaOff "oid1" "ORD-2" [] exReq none "tok" exUser hu hf,
    rfl⟩

/-- C3 witness: cancelling the shipped order fails with a 400 while
cancelling the pending order succeeds, cancels it and appends the note. -/
theorem claim_C3_witness :
    cancel_order exEnv 3 exOrdersShipped "o1" "tok" =
      (.error ⟨400, "Order cannot be cancelled in "
        ++ statusText exShippedOrder.status ++ " status"⟩, exOrdersShipped) ∧
    (∃ o', cancel_order exEnv 3 exOrders "o1" "tok" =
        (.ok o', storeSet exOrders "o1" o') ∧
      o'.status = .cancelled ∧
      o'.notes = some (appendNote exPendingOrder.notes 3 "Cancelled by customer")) :=
  ⟨(claim_C3 exEnv 3 exOrdersShipped "o1" "tok").2.2.2.1 exUser exShippedOrder
      rfl rfl rfl (Or.inl rfl),
   (claim_C3 exEnv 3 exOrders "o1" "tok").2.2.2.2 exUser exPendingOrder
      rfl rfl rfl (Or.inl rfl)⟩

/-- C4 witness: confirming the pending order at time 5 stamps
`confirmed_at := 5`, and confirming again at time 9 keeps the stamp 5. -/
theorem claim_C4_witness :
    storeGet exOrders "o1" = some exPendingOrder ∧
    milestone_at .confirmed exPendingOrder = none ∧
    (∃ o1 store1, update_order_status 5 exOrders "o1" .confirmed none =
        (some o1, store1) ∧
      milestone_at .confirmed o1 = some 5 ∧
      ∃ o2, (update_order_status 9 store1 "o1" .confirmed none).1 = some o2 ∧
        milestone_at .confirmed o2 = some 5) :=
  ⟨rfl, rfl,
   (claim_C4 5 9 exOrders "o1" .confirmed none none exPendingOrder
      (Or.inl rfl) rfl).2 rfl⟩

/-- C6 witness: updating an unknown order id yields a 404; shipping the
stored pending order sets the status and appends the timestamped note. -/
theorem claim_C6_witness :
    service_update_order_status 7 exOrders "zz" .shipped none =
      (.error ⟨404, "Order not found"⟩, exOrders) ∧
    (∃ o', service_update_order_status 7 exOrders "o1" .shipped (some "ship it") =
        (.ok o', storeSet exOrders "o1" o') ∧
      o'.status = .shipped ∧
      ∀ s, (some "ship it" : Option String) = some s → s ≠ "" →
        o'.notes = some (appendNote exPendingOrder.notes 7 s)) :=
  ⟨(claim_C6 7 exOrders "zz" .shipped none).1 rfl,
   (claim_C6 7 exOrders "o1" .shipped (some "ship it")).2 exPendingOrder rfl⟩

/-- C7 (amended) witness: a duplicate email, a duplicate SKU and a
duplicate category name each fail with a 400 leaving the stores
unchanged. -/
theorem claim_C7_amended_witness :
    register_user (fun s => s) exUsers "Bob" "a@b.c" "pw" =
      (.error ⟨400, "User with this email already exists"⟩, exUsers) ∧
    create_product exProducts exCats "p9" exPData =
      (.error ⟨400, "Product with this SKU already exists"⟩, exProducts) ∧
    create_category exCats "c9" "Books" none =
      (.error ⟨400, "Category with this name already exists"⟩, exCats) :=
  ⟨(claim_C7_amended (fun s => s) exUsers "Bob" "a@b.c" "pw" exProducts exCats
      "p9" exPData "SKU1" "c9" "Books" none).1 rfl,
   (claim_C7_amended (fun s => s) exUsers "Bob" "a@b.c" "pw" exProducts exCats
      "p9" exPData "SKU1" "c9" "Books" none).2.1 rfl (by decide) rfl,
   (claim_C7_amended (fun s => s) exUsers "Bob" "a@b.c" "pw" exProducts exCats
      "p9" exPData "SKU1" "c9" "Books" none).2.2 rfl⟩

/-- C8 witness: subtracting 9 from a stock of 5 is rejected with nothing
written and a 400, and stock nonnegativity is preserved. -/
theorem claim_C8_witness :
    update_stock exProducts "p1" (-9) = (none, exProducts) ∧
    service_update_stock exProducts "p1" (-9) =
      (.error ⟨400, "Product not found or insufficient stock"⟩, exProducts) ∧
    ∀ e ∈ (update_stock exProducts "p1" (-9)).2, 0 ≤ e.2.stock_quantity := by
  have h := (claim_C8 exProducts "p1" (-9)).1 exProd rfl (by decide)
  exact ⟨h.1, h.2, (claim_C8 exProducts "p1" (-9)).2 (by decide)⟩

/-- C9 witness: with the transport disabled the emission is skipped, and a
creation that publishes into a failing transport returns exactly what the
same creation returns with the transport disabled. -/
theorem claim_C9_witness :
    send_event exKafkaOff "order-events" = .skipped ∧
    create_order exEnv exKafkaFail "oid1" "ORD-2" [] exReq none "tok" =
      create_order exEnv exKafkaOff "oid1" "ORD-2" [] exReq none "tok" :=
  ⟨(claim_C9 exKafkaOff exKafkaFail exKafkaOff "order-events" exEnv "oid1"
      "ORD-2" [] exReq none "tok").1 (Or.inl rfl),
   (claim_C9 exKafkaOff exKafkaFail exKafkaOff "order-events" exEnv "oid1"
      "ORD-2" [] exReq none "tok").2⟩

/-- C10 witness: driving the stock from 5 to 0 succeeds and marks the
product unavailable. -/
theorem claim_C10_witness :
    (update_stock exProducts "p1" (-5)).1 = some exSoldOut ∧
    exSoldOut.is_available = decide (0 < exSoldOut.stock_quantity) ∧
    exSoldOut.is_available = false := by
  have h1 : (update_stock exProducts "p1" (-5)).1 = some exSoldOut := rfl
  exact ⟨h1, claim_C10 exProducts "p1" (-5) exSoldOut h1, by decide⟩

end ECom
